import Mathlib

/-!
Shallow embedding of `app.py` of the `sistema-autorizacion-flask` repository.

The embedding models the request lifecycle and authorization state machine:
user records (`Usuario`), permit requests (`SolicitudDB`), the static
role-to-permission table (`ROLES`), the capability check (`tiene_permiso`),
the transition operation (`gestionar_solicitud_db`), request creation,
deletion and date-filtered listing, user management, login, and the
row-shaping / color policy of the PDF report generator
(`generar_pdf_historial`).  The database session is modelled by explicit
state passing over lists kept in insertion order; SQL string comparison on
the ISO date columns is modelled by byte-wise lexicographic comparison on
character lists; external collaborators (the password hasher and verifier
of werkzeug) are passed as oracle functions.
-/

namespace SistemaAutorizacion

/-- A row of the `Usuario` table: `username` unique, `password_hash`
nullable, `rol` a role-name string. -/
structure Usuario where
  id : Nat
  username : String
  password_hash : Option String
  rol : String
deriving DecidableEq

/-- The ambient `current_user` of flask-login: either the anonymous user
(`is_authenticated` false) or a logged-in `Usuario`. -/
inductive Actor where
  | anon : Actor
  | user : Usuario → Actor
deriving DecidableEq

/-- A row of the `SolicitudDB` table.  `estado` defaults to `"PENDIENTE"`
and `autorizador` is nullable (`none` = SQL NULL). -/
structure SolicitudDB where
  id : Nat
  solicitante : String
  fecha_inicio_str : String
  fecha_fin_str : String
  direccion : String
  comisaria_cercana : String
  contacto : String
  servicio : String
  estado : String
  autorizador : Option String
deriving DecidableEq

/-- The static role → capability dictionary `ROLES` of `app.py`. -/
def ROLES : List (String × List String) :=
  [ ("Administrador", ["ver_panel", "generar_pdf", "gestionar_solicitud", "gestionar_usuarios"]),
    ("Guardia", ["ver_panel", "generar_pdf"]),
    ("Ventas", ["ver_informe"]),
    ("Editor", ["editar_producto"]) ]

/-- Python `dict.get(k, dflt)` on a string-keyed dictionary given as an
association list. -/
def dictGetD (d : List (String × List String)) (k : String) (dflt : List String) :
    List String :=
  match d with
  | [] => dflt
  | (k2, v) :: rest => if k = k2 then v else dictGetD rest k dflt

/-- The keys of a dictionary given as an association list. -/
def dictKeys (d : List (String × List String)) : List String := d.map Prod.fst

/-- `tiene_permiso(permiso_requerido)`: false for an unauthenticated
`current_user`, otherwise membership of the capability in
`ROLES.get(current_user.rol, [])`. -/
def tiene_permiso (current_user : Actor) (permiso_requerido : String) : Bool :=
  match current_user with
  | Actor.anon => false
  | Actor.user u => decide (permiso_requerido ∈ dictGetD ROLES u.rol [])

/-- The `SolicitudDB` table together with the autoincrement counter for the
primary key; rows are kept in insertion order. -/
structure Store where
  solicitudes : List SolicitudDB
  nextId : Nat
deriving DecidableEq

/-- `SolicitudDB.query.get(i)`: lookup by primary key. -/
def query_get (s : Store) (i : Nat) : Option SolicitudDB :=
  s.solicitudes.find? (fun sol => decide (sol.id = i))

/-- The fields read from the submission form in `formulario_solicitud`. -/
structure SolicitudForm where
  solicitante : String
  inicio : String
  fin : String
  direccion : String
  comisaria : String
  contacto : String
  servicio : String
deriving DecidableEq

/-- The `SolicitudDB(...)` constructor call in `formulario_solicitud`:
only the form fields are passed, so `estado` takes its column default
`"PENDIENTE"` and `autorizador` its default NULL. -/
def nueva_solicitud (s : Store) (d : SolicitudForm) : SolicitudDB :=
  { id := s.nextId, solicitante := d.solicitante, fecha_inicio_str := d.inicio,
    fecha_fin_str := d.fin, direccion := d.direccion,
    comisaria_cercana := d.comisaria, contacto := d.contacto,
    servicio := d.servicio, estado := "PENDIENTE", autorizador := none }

/-- The POST branch of `formulario_solicitud`: builds a new `SolicitudDB`
from the form, adds it and commits.  Returns the new store and the id
assigned to the new row. -/
def formulario_solicitud_post (s : Store) (d : SolicitudForm) : Store × Nat :=
  ({ solicitudes := s.solicitudes ++ [nueva_solicitud s d], nextId := s.nextId + 1 },
   s.nextId)

/-- The in-place mutation `solicitud.estado = nueva_estado;
solicitud.autorizador = usuario_autorizador` applied to the row with the
given primary key. -/
def actualizar (solicitud_id : Nat) (nueva_estado usuario_autorizador : String)
    (sols : List SolicitudDB) : List SolicitudDB :=
  sols.map (fun sol =>
    if sol.id = solicitud_id then
      { sol with estado := nueva_estado, autorizador := some usuario_autorizador }
    else sol)

/-- `gestionar_solicitud_db(usuario_autorizador, solicitud_id, nueva_estado)`:
returns False if the ambient `current_user` lacks the
`"gestionar_solicitud"` capability; otherwise looks the request up by id,
and if found sets `estado` and `autorizador` together and commits,
returning True; returns False when the id is not found. -/
def gestionar_solicitud_db (current_user : Actor) (usuario_autorizador : String)
    (solicitud_id : Nat) (nueva_estado : String) (s : Store) : Store × Bool :=
  if ¬ tiene_permiso current_user "gestionar_solicitud" then (s, false)
  else
    match query_get s solicitud_id with
    | some _ =>
        ({ s with solicitudes := actualizar solicitud_id nueva_estado usuario_autorizador s.solicitudes },
         true)
    | none => (s, false)

/-- The route `eliminar_solicitud`: requires the `"gestionar_solicitud"`
capability, deletes the row with the given id if present, otherwise leaves
the store unchanged. -/
def eliminar_solicitud (current_user : Actor) (i : Nat) (s : Store) : Store :=
  if tiene_permiso current_user "gestionar_solicitud" then
    match query_get s i with
    | some _ => { s with solicitudes := s.solicitudes.filter (fun sol => decide (sol.id ≠ i)) }
    | none => s
  else s

/-- Byte-wise lexicographic comparison of character lists: the comparison
SQL applies to the `VARCHAR` date columns under the default (binary)
collation. -/
def charsLe : List Char → List Char → Bool
  | [], _ => true
  | _ :: _, [] => false
  | a :: as, b :: bs => if a < b then true else if b < a then false else charsLe as bs

/-- SQL `a <= b` on string columns. -/
def fecha_le (a b : String) : Bool := charsLe a.data b.data

/-- The `modo == 'hoy'` query of `lista_general_solicitudes` (also used by
`descargar_pdf_hoy`): the rows with
`fecha_inicio_str <= hoy_str` and `fecha_fin_str >= hoy_str`. -/
def lista_vigentes (s : Store) (hoy_str : String) : List SolicitudDB :=
  s.solicitudes.filter (fun sol =>
    fecha_le sol.fecha_inicio_str hoy_str && fecha_le hoy_str sol.fecha_fin_str)

/-- The `Usuario` table with its autoincrement counter. -/
structure UserStore where
  usuarios : List Usuario
  nextId : Nat
deriving DecidableEq

/-- `Usuario.query.filter_by(username=...).first()`. -/
def usuario_por_nombre (s : UserStore) (username : String) : Option Usuario :=
  s.usuarios.find? (fun u => decide (u.username = username))

/-- The POST branch of `gestionar_usuarios` (guarded by the
`"gestionar_usuarios"` capability): if no row has exactly the submitted
username, a new `Usuario` is created with `set_password` (modelled by the
hashing oracle `hash`) and committed; otherwise nothing is written.
Returns the new store and whether a user was created. -/
def gestionar_usuarios_post (hash : String → String) (current_user : Actor)
    (username rol password : String) (s : UserStore) : UserStore × Bool :=
  if ¬ tiene_permiso current_user "gestionar_usuarios" then (s, false)
  else
    match usuario_por_nombre s username with
    | none =>
        let nuevo : Usuario :=
          { id := s.nextId, username := username,
            password_hash := some (hash password), rol := rol }
        ({ usuarios := s.usuarios ++ [nuevo], nextId := s.nextId + 1 }, true)
    | some _ => (s, false)

/-- `Usuario.check_password`: False when `password_hash` is unset,
otherwise the werkzeug verifier (modelled by the oracle `verify`) applied
to the stored hash and the candidate. -/
def check_password (verify : String → String → Bool) (u : Usuario)
    (password : String) : Bool :=
  match u.password_hash with
  | none => false
  | some h => verify h password

/-- The POST branch of `login`: look the user up by the submitted username;
`login_user` succeeds (returns the established session user) only when the
user exists and `check_password` accepts the candidate. -/
def login_post (verify : String → String → Bool) (s : UserStore)
    (username password : String) : Option Usuario :=
  match usuario_por_nombre s username with
  | some u => if check_password verify u password then some u else none
  | none => none

/-- Digit test on a character list (`strptime` requires every field of the
`%Y-%m-%d` pattern to be decimal digits). -/
def esDigitos (cs : List Char) : Bool := !cs.isEmpty && cs.all Char.isDigit

/-- Decimal value of a digit list. -/
def digitsVal (cs : List Char) : Nat :=
  cs.foldl (fun acc c => acc * 10 + (c.toNat - 48)) 0

/-- Python `str.split('-')` on a character list. -/
def splitDash : List Char → List (List Char)
  | [] => [[]]
  | c :: cs =>
    let rest := splitDash cs
    if c = '-' then [] :: rest
    else
      match rest with
      | [] => [[c]]
      | r :: rs => (c :: r) :: rs

/-- Gregorian leap year, as in Python's `datetime`. -/
def esBisiesto (y : Nat) : Bool := (y % 4 == 0 && y % 100 != 0) || (y % 400 == 0)

/-- Days in a month, as validated by `datetime.strptime`. -/
def diasEnMes (y m : Nat) : Nat :=
  if m = 2 then (if esBisiesto y then 29 else 28)
  else if m = 4 ∨ m = 6 ∨ m = 9 ∨ m = 11 then 30
  else 31

/-- `datetime.strptime(s, '%Y-%m-%d')` modelled on the character list of
`s`: three dash-separated digit fields (year up to 4 digits, month and day
up to 2), denoting a valid calendar date with year ≥ 1. -/
def parse_ymd (s : String) : Option (Nat × Nat × Nat) :=
  match splitDash s.data with
  | [ys, ms, ds] =>
    if esDigitos ys && decide (ys.length ≤ 4) && esDigitos ms && decide (ms.length ≤ 2)
        && esDigitos ds && decide (ds.length ≤ 2) then
      let y := digitsVal ys
      let m := digitsVal ms
      let d := digitsVal ds
      if 1 ≤ y ∧ 1 ≤ m ∧ m ≤ 12 ∧ 1 ≤ d ∧ d ≤ diasEnMes y m then some (y, m, d)
      else none
    else none
  | _ => none

/-- Zero-padding to two digits, as `strftime('%d')` and `strftime('%m')`. -/
def pad2 (n : Nat) : String := if n < 10 then "0" ++ toString n else toString n

/-- `SolicitudDB.get_fecha_inicio` / `get_fecha_fin` body: reformat a
`%Y-%m-%d` date as `%d/%m/%Y`, returning the raw string on a parse
failure (the `except` branch). -/
def reformatear_fecha (s : String) : String :=
  match parse_ymd s with
  | some (y, m, d) => pad2 d ++ "/" ++ pad2 m ++ "/" ++ toString y
  | none => s

/-- `SolicitudDB.get_fecha_inicio`. -/
def get_fecha_inicio (sol : SolicitudDB) : String := reformatear_fecha sol.fecha_inicio_str

/-- `SolicitudDB.get_fecha_fin`. -/
def get_fecha_fin (sol : SolicitudDB) : String := reformatear_fecha sol.fecha_fin_str

/-- `sol.autorizador if sol.autorizador else 'N/A'`: Python truthiness, so
both NULL and the empty string yield `"N/A"`. -/
def autorizador_str (sol : SolicitudDB) : String :=
  match sol.autorizador with
  | none => "N/A"
  | some a => if a = "" then "N/A" else a

/-- The header row of the report table in `generar_pdf_historial`. -/
def encabezado : List String :=
  ["ID", "Solicitante", "Servicio", "Período", "Dirección", "Estado", "Autorizador", "Contacto"]

/-- The data row appended for one request in `generar_pdf_historial`. -/
def fila (sol : SolicitudDB) : List String :=
  [toString sol.id, sol.solicitante, sol.servicio,
   get_fecha_inicio sol ++ " - " ++ get_fecha_fin sol,
   sol.direccion ++ "\n(Com.: " ++ sol.comisaria_cercana ++ ")",
   sol.estado, autorizador_str sol, sol.contacto]

/-- The `data` table of `generar_pdf_historial`: the header row followed by
one row per request, in order. -/
def tabla_datos (sols : List SolicitudDB) : List (List String) :=
  encabezado :: sols.map fila

/-- The row-highlight policy of `generar_pdf_historial`, keyed on the
`Estado` cell: reportlab's `lightgreen` for APROBADA, `lightcoral` for
RECHAZADA, `yellow` for PENDIENTE, `white` otherwise. -/
def color_estado (estado : String) : String :=
  if estado = "APROBADA" then "lightgreen"
  else if estado = "RECHAZADA" then "lightcoral"
  else if estado = "PENDIENTE" then "yellow"
  else "white"

/-- The background color applied to the `Estado` cell of each data row
(`data[i][5]` for `i` in 1..len-1). -/
def colores_filas (sols : List SolicitudDB) : List String :=
  ((tabla_datos sols).drop 1).map (fun row => color_estado (row.getD 5 ""))

/-- The spec's `PENDIENTE` invariant for one row: `autorizador` is set iff
`estado` differs from `"PENDIENTE"`. -/
def inv_solicitud (sol : SolicitudDB) : Bool :=
  sol.autorizador.isSome == (sol.estado != "PENDIENTE")

/-- The invariant over the whole store. -/
def inv_store (s : Store) : Bool := s.solicitudes.all inv_solicitud

/-- Concrete administrator fixture (the seeded `victor_admin` account, with
an opaque hash string). -/
def admin0 : Usuario :=
  { id := 1, username := "victor_admin", password_hash := some "h", rol := "Administrador" }

/-- Empty request store fixture. -/
def store0 : Store := { solicitudes := [], nextId := 1 }

/-- A pending request fixture. -/
def sol1 : SolicitudDB :=
  { id := 1, solicitante := "Ana", fecha_inicio_str := "2024-01-10",
    fecha_fin_str := "2024-01-20", direccion := "Calle 1", comisaria_cercana := "C1",
    contacto := "555", servicio := "Entrada", estado := "PENDIENTE", autorizador := none }

/-- A store holding exactly the pending request `sol1`. -/
def store1 : Store := { solicitudes := [sol1], nextId := 2 }

/-- Submission-form fixture matching `sol1`'s fields. -/
def form0 : SolicitudForm :=
  { solicitante := "Ana", inicio := "2024-03-01", fin := "2024-03-05",
    direccion := "Calle 1", comisaria := "C1", contacto := "555", servicio := "Entrada" }

/-- An already-approved request fixture. -/
def solA : SolicitudDB :=
  { sol1 with estado := "APROBADA", autorizador := some "victor_admin" }

/-- A store holding exactly the approved request `solA`. -/
def storeA : Store := { solicitudes := [solA], nextId := 2 }

/-- A request whose `autorizador` is the empty string (a set, non-NULL
value that Python truthiness treats as false). -/
def sol_autor_vacio : SolicitudDB :=
  { sol1 with estado := "APROBADA", autorizador := some "" }

/-- A user row with no password hash. -/
def usuario_sin_hash : Usuario :=
  { id := 7, username := "fantasma", password_hash := none, rol := "Guardia" }

/-- User-table fixture holding only the administrator. -/
def storeU0 : UserStore := { usuarios := [admin0], nextId := 2 }

/-- User-table fixture holding only the hashless user. -/
def storeU1 : UserStore := { usuarios := [usuario_sin_hash], nextId := 8 }

/-- A user fixture whose role is absent from `ROLES`. -/
def usuario_rol_desconocido : Usuario :=
  { id := 9, username := "x", password_hash := none, rol := "Desconocido" }

/-! ## Helper lemmas -/

theorem dictGetD_not_mem (d : List (String × List String)) (k : String) (dflt : List String)
    (h : k ∉ dictKeys d) : dictGetD d k dflt = dflt := by
  induction d with
  | nil => rfl
  | cons p rest ih =>
    obtain ⟨k2, v⟩ := p
    simp only [dictKeys, List.map_cons, List.mem_cons, not_or] at h
    simp only [dictGetD, if_neg h.1]
    exact ih (by simpa [dictKeys] using h.2)

theorem charsLe_iff_lex (a b : List Char) :
    charsLe a b = true ↔ a = b ∨ List.Lex (fun c1 c2 => c1 < c2) a b := by
  induction a generalizing b with
  | nil =>
    cases b with
    | nil => simp [charsLe]
    | cons y ys => exact iff_of_true (by simp [charsLe]) (Or.inr List.Lex.nil)
  | cons x xs ih =>
    cases b with
    | nil =>
      simp only [charsLe]
      constructor
      · intro h; exact Bool.noConfusion h
      · intro h
        rcases h with h | h
        · exact absurd h (List.cons_ne_nil x xs)
        · cases h
    | cons y ys =>
      by_cases hlt : x < y
      · exact iff_of_true (by simp [charsLe, hlt]) (Or.inr (List.Lex.rel hlt))
      · by_cases hgt : y < x
        · simp only [charsLe, if_neg hlt, if_pos hgt]
          constructor
          · intro h; exact Bool.noConfusion h
          · intro h
            rcases h with h | h
            · rw [List.cons.injEq] at h
              exact absurd (h.1 ▸ hgt) (lt_irrefl x)
            · cases h with
              | cons h2 => exact absurd hgt (lt_irrefl x)
              | rel h2 => exact absurd h2 hlt
        · have hxy : x = y := le_antisymm (not_lt.mp hgt) (not_lt.mp hlt)
          subst hxy
          simp only [charsLe, if_neg hlt, if_neg hgt, ih ys, List.cons.injEq, true_and]
          constructor
          · intro h
            rcases h with h | h
            · exact Or.inl h
            · exact Or.inr (List.Lex.cons h)
          · intro h
            rcases h with h | h
            · exact Or.inl h
            · cases h with
              | cons h2 => exact Or.inr h2
              | rel h2 => exact absurd h2 (lt_irrefl x)

theorem find_append_of_none {α : Type} (p : α → Bool) (l1 l2 : List α)
    (h : ∀ x ∈ l1, p x = false) : (l1 ++ l2).find? p = l2.find? p := by
  induction l1 with
  | nil => rfl
  | cons a rest ih =>
    have ha : p a = false := h a (List.mem_cons_self a rest)
    rw [List.cons_append, List.find?_cons_of_neg (rest ++ l2) (by simp [ha])]
    exact ih (fun x hx => h x (List.mem_cons_of_mem a hx))

theorem query_get_actualizar (sols : List SolicitudDB) (i : Nat) (ne u : String) :
    (actualizar i ne u sols).find? (fun sol => decide (sol.id = i)) =
      (sols.find? (fun sol => decide (sol.id = i))).map
        (fun sol => { sol with estado := ne, autorizador := some u }) := by
  induction sols with
  | nil => rfl
  | cons a rest ih =>
    by_cases h : a.id = i
    · simp only [actualizar, List.map_cons]
      rw [if_pos h, List.find?_cons_of_pos _ (by simpa using h),
        List.find?_cons_of_pos _ (by simpa using h), Option.map_some']
    · simp only [actualizar, List.map_cons]
      rw [if_neg h, List.find?_cons_of_neg _ (by simpa using h),
        List.find?_cons_of_neg _ (by simpa using h)]
      exact ih

theorem getD_map_get {α β : Type} (f : α → β) (l : List α) (k : Nat) (hk : k < l.length)
    (d : β) : (l.map f).getD k d = f (l.get ⟨k, hk⟩) := by
  induction l generalizing k with
  | nil => exact absurd hk (by simp)
  | cons a rest ih =>
    cases k with
    | zero => rfl
    | succ n =>
      have hn : n < rest.length := Nat.succ_lt_succ_iff.mp (by simpa using hk)
      simpa using ih n hn

/-! ## Claims -/

/-- Claim C3: `tiene_permiso(actor, permiso)` is true iff the actor is
authenticated and the capability belongs to the `ROLES` entry for the
actor's role; it is false for the anonymous actor and for every role
absent from `ROLES`, whatever the capability.  (It is a total Lean
function, so it never raises.) -/
theorem tiene_permiso_spec (actor : Actor) (permiso : String) :
    (tiene_permiso actor permiso = true ↔
      ∃ u, actor = Actor.user u ∧ permiso ∈ dictGetD ROLES u.rol []) ∧
    (tiene_permiso Actor.anon permiso = false) ∧
    (∀ u, actor = Actor.user u → u.rol ∉ dictKeys ROLES →
      tiene_permiso actor permiso = false) := by
  refine ⟨?_, rfl, ?_⟩
  · cases actor with
    | anon =>
      simp only [tiene_permiso]
      constructor
      · intro h; exact Bool.noConfusion h
      · intro h
        obtain ⟨u, hu, _⟩ := h
        exact Actor.noConfusion hu
    | user u =>
      simp only [tiene_permiso, decide_eq_true_eq]
      constructor
      · intro h; exact ⟨u, rfl, h⟩
      · intro h
        obtain ⟨u2, hu2, hmem⟩ := h
        cases hu2
        exact hmem
  · intro u hu hrol
    subst hu
    simp only [tiene_permiso, dictGetD_not_mem ROLES u.rol [] hrol]
    simp

/-- Witness for C3 at concrete inputs: the administrator holds
`ver_panel`, the anonymous actor holds nothing, and an unknown role
confers nothing. -/
theorem tiene_permiso_spec_witness :
    tiene_permiso (Actor.user admin0) "ver_panel" = true ∧
    tiene_permiso Actor.anon "ver_panel" = false ∧
    tiene_permiso (Actor.user usuario_rol_desconocido) "ver_panel" = false :=
  ⟨(tiene_permiso_spec (Actor.user admin0) "ver_panel").1.mpr ⟨admin0, rfl, by decide⟩,
   (tiene_permiso_spec Actor.anon "ver_panel").2.1,
   (tiene_permiso_spec (Actor.user usuario_rol_desconocido) "ver_panel").2.2 _ rfl (by decide)⟩

/-- Claim C4: the active-today query returns exactly the stored requests
with `fecha_inicio_str <= d` and `d <= fecha_fin_str`, both bounds
inclusive, where `<=` is the byte-wise string comparison `fecha_le`; and
`fecha_le` is precisely the reflexive lexicographic order on the
character lists of the two strings. -/
theorem lista_vigentes_spec (s : Store) (d : String) :
    (∀ sol, sol ∈ lista_vigentes s d ↔
      sol ∈ s.solicitudes ∧ fecha_le sol.fecha_inicio_str d = true ∧
        fecha_le d sol.fecha_fin_str = true) ∧
    (∀ a b : String, fecha_le a b = true ↔
      a = b ∨ List.Lex (fun c1 c2 => c1 < c2) a.data b.data) := by
  constructor
  · intro sol
    simp only [lista_vigentes, List.mem_filter, Bool.and_eq_true, and_assoc]
  · intro a b
    rw [fecha_le, charsLe_iff_lex]
    constructor
    · intro h
      rcases h with h | h
      · refine Or.inl ?_
        cases a
        cases b
        exact congrArg String.mk h
      · exact Or.inr h
    · intro h
      rcases h with h | h
      · exact Or.inl (by rw [h])
      · exact Or.inr h

/-- Witness for C4: the request with start `2024-01-10` and end
`2024-01-20` is listed on `2024-01-10`, `2024-01-15` and `2024-01-20`,
and not listed on `2024-01-09` or `2024-01-21`. -/
theorem lista_vigentes_spec_witness :
    sol1 ∈ lista_vigentes store1 "2024-01-10" ∧
    sol1 ∈ lista_vigentes store1 "2024-01-15" ∧
    sol1 ∈ lista_vigentes store1 "2024-01-20" ∧
    sol1 ∉ lista_vigentes store1 "2024-01-09" ∧
    sol1 ∉ lista_vigentes store1 "2024-01-21" :=
  ⟨((lista_vigentes_spec store1 "2024-01-10").1 sol1).mpr (by decide),
   ((lista_vigentes_spec store1 "2024-01-15").1 sol1).mpr (by decide),
   ((lista_vigentes_spec store1 "2024-01-20").1 sol1).mpr (by decide),
   fun h => absurd (((lista_vigentes_spec store1 "2024-01-09").1 sol1).mp h).2.1 (by decide),
   fun h => absurd (((lista_vigentes_spec store1 "2024-01-21").1 sol1).mp h).2.2 (by decide)⟩

/-- Claim C1 (amended): the invariant "`autorizador` is set iff `estado`
is not `PENDIENTE`" is preserved by public submission and by deletion
unconditionally, and by `gestionar_solicitud_db` whenever the target
state differs from `"PENDIENTE"`.  (As stated for an arbitrary target
state it fails: see the counterexample.) -/
theorem inv_pendiente_preservada (s : Store) (h : inv_store s = true) :
    (∀ d, inv_store (formulario_solicitud_post s d).1 = true) ∧
    (∀ (a : Actor) (i : Nat), inv_store (eliminar_solicitud a i s) = true) ∧
    (∀ (a : Actor) (ua : String) (i : Nat) (ne : String), ne ≠ "PENDIENTE" →
      inv_store (gestionar_solicitud_db a ua i ne s).1 = true) := by
  have hmem : ∀ x ∈ s.solicitudes, inv_solicitud x = true := by
    have h2 := h
    rw [inv_store, List.all_eq_true] at h2
    exact h2
  refine ⟨?_, ?_, ?_⟩
  · intro d
    rw [inv_store, List.all_eq_true]
    intro x hx
    simp only [formulario_solicitud_post] at hx
    rcases List.mem_append.mp hx with hx | hx
    · exact hmem x hx
    · rw [List.mem_singleton] at hx
      subst hx
      rfl
  · intro a i
    rw [eliminar_solicitud]
    by_cases hperm : tiene_permiso a "gestionar_solicitud" = true
    · cases hq : query_get s i with
      | none => simpa [hperm, hq] using h
      | some sol =>
        simp only [hperm, hq, if_true]
        rw [inv_store, List.all_eq_true]
        intro x hx
        exact hmem x (List.mem_filter.mp hx).1
    · simpa [hperm] using h
  · intro a ua i ne hne
    by_cases hperm : tiene_permiso a "gestionar_solicitud" = true
    · cases hq : query_get s i with
      | none => simpa [gestionar_solicitud_db, hperm, hq] using h
      | some sol =>
        have hg : (gestionar_solicitud_db a ua i ne s).1 =
            { s with solicitudes := actualizar i ne ua s.solicitudes } := by
          simp [gestionar_solicitud_db, hperm, hq]
        rw [hg, inv_store, List.all_eq_true]
        intro x hx
        obtain ⟨y, hy, hfy⟩ := List.mem_map.mp hx
        cases hfy
        by_cases hid : y.id = i
        · rw [if_pos hid]
          simp [inv_solicitud, bne_iff_ne, hne]
        · rw [if_neg hid]
          exact hmem y hy
    · simpa [gestionar_solicitud_db, hperm] using h

/-- Counterexample to C1 as stated: the store holding one PENDIENTE
request satisfies the invariant, yet `gestionar_solicitud_db` invoked by
a fully-capable actor with the target-state string `"PENDIENTE"`
succeeds and leaves a request whose state is PENDIENTE with a set
authorizer, violating the invariant. -/
theorem inv_pendiente_counterexample :
    inv_store store1 = true ∧
    tiene_permiso (Actor.user admin0) "gestionar_solicitud" = true ∧
    (gestionar_solicitud_db (Actor.user admin0) "victor_admin" 1 "PENDIENTE" store1).2 = true ∧
    inv_store (gestionar_solicitud_db (Actor.user admin0) "victor_admin" 1 "PENDIENTE" store1).1 = false := by
  decide

/-- Witness for the amended C1: transitioning the pending request of
`store1` to `"APROBADA"` preserves the invariant. -/
theorem inv_pendiente_preservada_witness :
    inv_store store1 = true ∧
    inv_store (gestionar_solicitud_db (Actor.user admin0) "victor_admin" 1 "APROBADA" store1).1 = true :=
  ⟨by decide, (inv_pendiente_preservada store1 (by decide)).2.2 _ _ _ _ (by decide)⟩

/-- Claim C2: `gestionar_solicitud_db` returns False exactly when the
actor lacks the `gestionar_solicitud` capability or no request with the
given id exists; on every failure the store is completely unchanged; and
on every path each stored request is either untouched or has its state
and authorizer assigned together. -/
theorem gestionar_solicitud_db_fail_closed (cu : Actor) (ua : String) (i : Nat)
    (ne : String) (s : Store) :
    ((gestionar_solicitud_db cu ua i ne s).2 = false ↔
      tiene_permiso cu "gestionar_solicitud" = false ∨ query_get s i = none) ∧
    ((gestionar_solicitud_db cu ua i ne s).2 = false →
      (gestionar_solicitud_db cu ua i ne s).1 = s) ∧
    (∀ sol2 ∈ (gestionar_solicitud_db cu ua i ne s).1.solicitudes,
      sol2 ∈ s.solicitudes ∨ (sol2.estado = ne ∧ sol2.autorizador = some ua)) := by
  by_cases hperm : tiene_permiso cu "gestionar_solicitud" = true
  · cases hq : query_get s i with
    | none =>
      have hg : gestionar_solicitud_db cu ua i ne s = (s, false) := by
        simp [gestionar_solicitud_db, hperm, hq]
      rw [hg]
      exact ⟨by simp [hq], fun _ => rfl, fun sol2 h2 => Or.inl h2⟩
    | some sol =>
      have hg : gestionar_solicitud_db cu ua i ne s =
          ({ s with solicitudes := actualizar i ne ua s.solicitudes }, true) := by
        simp [gestionar_solicitud_db, hperm, hq]
      rw [hg]
      refine ⟨by simp [hperm, hq], by simp, ?_⟩
      intro sol2 h2
      obtain ⟨y, hy, hfy⟩ := List.mem_map.mp h2
      cases hfy
      by_cases hid : y.id = i
      · rw [if_pos hid]
        exact Or.inr ⟨rfl, rfl⟩
      · rw [if_neg hid]
        exact Or.inl hy
  · have hperm2 : tiene_permiso cu "gestionar_solicitud" = false :=
      Bool.eq_false_iff.mpr hperm
    have hg : gestionar_solicitud_db cu ua i ne s = (s, false) := by
      simp [gestionar_solicitud_db, hperm]
    rw [hg]
    exact ⟨by simp [hperm2], fun _ => rfl, fun sol2 h2 => Or.inl h2⟩

/-- Witness for C2: the anonymous actor's transition attempt on `store1`
returns False and leaves the store unchanged. -/
theorem gestionar_solicitud_db_fail_closed_witness :
    (gestionar_solicitud_db Actor.anon "x" 1 "APROBADA" store1).2 = false ∧
    (gestionar_solicitud_db Actor.anon "x" 1 "APROBADA" store1).1 = store1 :=
  ⟨(gestionar_solicitud_db_fail_closed Actor.anon "x" 1 "APROBADA" store1).1.mpr (Or.inl rfl),
   (gestionar_solicitud_db_fail_closed Actor.anon "x" 1 "APROBADA" store1).2.1
     ((gestionar_solicitud_db_fail_closed Actor.anon "x" 1 "APROBADA" store1).1.mpr (Or.inl rfl))⟩

/-- Claim C5: a request created through the public submission endpoint
has state PENDIENTE and NULL authorizer; after an actor holding
`gestionar_solicitud` transitions it to APROBADA, its state is APROBADA
and its authorizer is that actor's username. -/
theorem ciclo_solicitud_aprobada (s : Store) (d : SolicitudForm) (u : Usuario)
    (hcap : tiene_permiso (Actor.user u) "gestionar_solicitud" = true)
    (hids : ∀ sol ∈ s.solicitudes, sol.id < s.nextId) :
    (∃ sol, query_get (formulario_solicitud_post s d).1 (formulario_solicitud_post s d).2 =
        some sol ∧ sol.estado = "PENDIENTE" ∧ sol.autorizador = none) ∧
    (gestionar_solicitud_db (Actor.user u) u.username (formulario_solicitud_post s d).2
      "APROBADA" (formulario_solicitud_post s d).1).2 = true ∧
    (∃ sol2, query_get (gestionar_solicitud_db (Actor.user u) u.username
          (formulario_solicitud_post s d).2 "APROBADA" (formulario_solicitud_post s d).1).1
        (formulario_solicitud_post s d).2 = some sol2 ∧
      sol2.estado = "APROBADA" ∧ sol2.autorizador = some u.username) := by
  have hq1 : query_get (formulario_solicitud_post s d).1 (formulario_solicitud_post s d).2 =
      some (nueva_solicitud s d) := by
    show (s.solicitudes ++ [nueva_solicitud s d]).find?
        (fun sol => decide (sol.id = s.nextId)) = some (nueva_solicitud s d)
    rw [find_append_of_none _ _ _ (fun x hx => decide_eq_false (Nat.ne_of_lt (hids x hx)))]
    exact List.find?_cons_of_pos _ (by simp [nueva_solicitud])
  have hg : gestionar_solicitud_db (Actor.user u) u.username (formulario_solicitud_post s d).2
      "APROBADA" (formulario_solicitud_post s d).1 =
      ({ (formulario_solicitud_post s d).1 with
          solicitudes := actualizar (formulario_solicitud_post s d).2 "APROBADA" u.username
            (formulario_solicitud_post s d).1.solicitudes }, true) := by
    simp [gestionar_solicitud_db, hcap, hq1]
  have hq2 : query_get (gestionar_solicitud_db (Actor.user u) u.username
        (formulario_solicitud_post s d).2 "APROBADA" (formulario_solicitud_post s d).1).1
      (formulario_solicitud_post s d).2 =
      some { nueva_solicitud s d with estado := "APROBADA", autorizador := some u.username } := by
    rw [hg]
    show (actualizar (formulario_solicitud_post s d).2 "APROBADA" u.username
        (formulario_solicitud_post s d).1.solicitudes).find?
        (fun sol => decide (sol.id = (formulario_solicitud_post s d).2)) = _
    rw [query_get_actualizar,
      show (formulario_solicitud_post s d).1.solicitudes.find?
        (fun sol => decide (sol.id = (formulario_solicitud_post s d).2)) =
        some (nueva_solicitud s d) from hq1]
    rfl
  exact ⟨⟨nueva_solicitud s d, hq1, rfl, rfl⟩, by rw [hg], ⟨_, hq2, rfl, rfl⟩⟩

/-- Witness for C5: from the empty store, the administrator approves the
freshly submitted request. -/
theorem ciclo_solicitud_aprobada_witness :
    tiene_permiso (Actor.user admin0) "gestionar_solicitud" = true ∧
    (gestionar_solicitud_db (Actor.user admin0) admin0.username
        (formulario_solicitud_post store0 form0).2 "APROBADA"
        (formulario_solicitud_post store0 form0).1).2 = true :=
  ⟨by decide, (ciclo_solicitud_aprobada store0 form0 admin0 (by decide) (by decide)).2.1⟩

/-- Claim C6: when `gestionar_solicitud_db` succeeds, the store keeps the
same rows in the same order; every row whose id differs from the target
is completely unchanged, and the targeted row keeps every field except
`estado` and `autorizador`, which are set to the given values. -/
theorem gestionar_solicitud_db_frame (cu : Actor) (ua : String) (i : Nat) (ne : String)
    (s : Store) (h : (gestionar_solicitud_db cu ua i ne s).2 = true) :
    (gestionar_solicitud_db cu ua i ne s).1.nextId = s.nextId ∧
    List.Forall₂ (fun sol sol2 =>
        sol2.id = sol.id ∧ sol2.solicitante = sol.solicitante ∧
        sol2.fecha_inicio_str = sol.fecha_inicio_str ∧
        sol2.fecha_fin_str = sol.fecha_fin_str ∧
        sol2.direccion = sol.direccion ∧ sol2.comisaria_cercana = sol.comisaria_cercana ∧
        sol2.contacto = sol.contacto ∧ sol2.servicio = sol.servicio ∧
        (sol.id ≠ i → sol2 = sol) ∧
        (sol.id = i → sol2.estado = ne ∧ sol2.autorizador = some ua))
      s.solicitudes (gestionar_solicitud_db cu ua i ne s).1.solicitudes := by
  by_cases hperm : tiene_permiso cu "gestionar_solicitud" = true
  · cases hq : query_get s i with
    | none => simp [gestionar_solicitud_db, hperm, hq] at h
    | some sol =>
      have hg : gestionar_solicitud_db cu ua i ne s =
          ({ s with solicitudes := actualizar i ne ua s.solicitudes }, true) := by
        simp [gestionar_solicitud_db, hperm, hq]
      rw [hg]
      refine ⟨rfl, ?_⟩
      show List.Forall₂ _ s.solicitudes (actualizar i ne ua s.solicitudes)
      rw [actualizar, List.forall₂_map_right_iff, List.forall₂_same]
      intro x _
      by_cases hid : x.id = i
      · rw [if_pos hid]
        exact ⟨rfl, rfl, rfl, rfl, rfl, rfl, rfl, rfl,
          fun hne => absurd hid hne, fun _ => ⟨rfl, rfl⟩⟩
      · rw [if_neg hid]
        exact ⟨rfl, rfl, rfl, rfl, rfl, rfl, rfl, rfl,
          fun _ => rfl, fun heq => absurd heq hid⟩
  · simp [gestionar_solicitud_db, hperm] at h

/-- Witness for C6: the administrator's successful transition on `store1`
leaves the id counter unchanged. -/
theorem gestionar_solicitud_db_frame_witness :
    (gestionar_solicitud_db (Actor.user admin0) "victor_admin" 1 "APROBADA" store1).1.nextId =
      store1.nextId :=
  (gestionar_solicitud_db_frame (Actor.user admin0) "victor_admin" 1 "APROBADA" store1
    (by decide)).1

/-- Claim C7: `gestionar_solicitud_db` has no terminal-state guard: on a
request already APROBADA or RECHAZADA, a capable actor's transition to
any state succeeds and rewrites state and authorizer. -/
theorem gestionar_solicitud_db_reentrada (s : Store) (u : Usuario) (i : Nat) (ne : String)
    (sol : SolicitudDB)
    (hcap : tiene_permiso (Actor.user u) "gestionar_solicitud" = true)
    (hfound : query_get s i = some sol)
    (_hterm : sol.estado = "APROBADA" ∨ sol.estado = "RECHAZADA") :
    (gestionar_solicitud_db (Actor.user u) u.username i ne s).2 = true ∧
    ∀ sol2 ∈ (gestionar_solicitud_db (Actor.user u) u.username i ne s).1.solicitudes,
      sol2.id = i → sol2.estado = ne ∧ sol2.autorizador = some u.username := by
  have hg : gestionar_solicitud_db (Actor.user u) u.username i ne s =
      ({ s with solicitudes := actualizar i ne u.username s.solicitudes }, true) := by
    simp [gestionar_solicitud_db, hcap, hfound]
  rw [hg]
  refine ⟨rfl, ?_⟩
  intro sol2 h2 hid2
  obtain ⟨y, _, hfy⟩ := List.mem_map.mp h2
  cases hfy
  by_cases hid : y.id = i
  · rw [if_pos hid]
    exact ⟨rfl, rfl⟩
  · rw [if_neg hid] at hid2
    exact absurd hid2 hid

/-- Witness for C7: the administrator re-transitions the already-approved
request of `storeA` to RECHAZADA and the call succeeds. -/
theorem gestionar_solicitud_db_reentrada_witness :
    (gestionar_solicitud_db (Actor.user admin0) admin0.username 1 "RECHAZADA" storeA).2 = true :=
  (gestionar_solicitud_db_reentrada storeA admin0 1 "RECHAZADA" solA (by decide) (by decide)
    (Or.inl rfl)).1

/-- Claim C8: creating a user whose username equals an existing one under
exact string equality is rejected: no row is added and the store,
including the existing record's password hash and role, is unchanged. -/
theorem gestionar_usuarios_duplicado (hash : String → String) (cu : Actor)
    (username rol password : String) (s : UserStore)
    (hdup : ∃ u2 ∈ s.usuarios, u2.username = username) :
    gestionar_usuarios_post hash cu username rol password s = (s, false) := by
  obtain ⟨u2, hu2, heq⟩ := hdup
  have hsome : (usuario_por_nombre s username).isSome = true := by
    rw [usuario_por_nombre, List.find?_isSome]
    exact ⟨u2, hu2, by simp [heq]⟩
  by_cases hperm : tiene_permiso cu "gestionar_usuarios" = true
  · cases hq : usuario_por_nombre s username with
    | none => rw [hq] at hsome; exact Bool.noConfusion hsome
    | some w => simp [gestionar_usuarios_post, hperm, hq]
  · simp [gestionar_usuarios_post, hperm]

/-- Witness for C8: re-submitting the seeded administrator's username is
rejected and the user table is unchanged. -/
theorem gestionar_usuarios_duplicado_witness :
    gestionar_usuarios_post (fun p => p) (Actor.user admin0) "victor_admin" "Guardia" "pw"
      storeU0 = (storeU0, false) :=
  gestionar_usuarios_duplicado (fun p => p) (Actor.user admin0) "victor_admin" "Guardia" "pw"
    storeU0 ⟨admin0, by decide, rfl⟩

/-- Claim C10: a user record with no password hash fails `check_password`
for every candidate password (the function is total, so it never raises),
and the login operation can never authenticate such an account. -/
theorem check_password_sin_hash (verify : String → String → Bool) (u : Usuario)
    (password : String) (h : u.password_hash = none) :
    check_password verify u password = false ∧
    ∀ (s : UserStore) (username : String), login_post verify s username password ≠ some u := by
  have hcp : check_password verify u password = false := by
    rw [check_password, h]
  refine ⟨hcp, ?_⟩
  intro s username hlogin
  rw [login_post] at hlogin
  cases hq : usuario_por_nombre s username with
  | none =>
    simp only [hq] at hlogin
    exact Option.noConfusion hlogin
  | some w =>
    simp only [hq] at hlogin
    by_cases hw : check_password verify w password = true
    · rw [if_pos hw] at hlogin
      have hwu : w = u := Option.some.inj hlogin
      subst hwu
      rw [hcp] at hw
      exact Bool.noConfusion hw
    · rw [if_neg hw] at hlogin
      exact Option.noConfusion hlogin

/-- Witness for C10: the hashless user `fantasma` is rejected by
`check_password` and cannot log in. -/
theorem check_password_sin_hash_witness :
    check_password (fun h2 p => h2 == p) usuario_sin_hash "pw" = false ∧
    login_post (fun h2 p => h2 == p) storeU1 "fantasma" "pw" ≠ some usuario_sin_hash :=
  ⟨(check_password_sin_hash (fun h2 p => h2 == p) usuario_sin_hash "pw" rfl).1,
   (check_password_sin_hash (fun h2 p => h2 == p) usuario_sin_hash "pw" rfl).2 storeU1 "fantasma"⟩

/-- Claim C9 (amended): the report table has exactly one data row per
request, in order, with cells {id, requester, service, period,
address+reference composite, state, authorizer column, contact} at
positions 0..7; the authorizer cell is `"N/A"` when the authorizer is
absent or the empty string and is the authorizer string itself otherwise
(Python truthiness: the original "exactly when absent" fails on the empty
string, see the counterexample); and the row's highlight color follows
the policy PENDIENTE→yellow, APROBADA→lightgreen, RECHAZADA→lightcoral,
anything else→white. -/
theorem tabla_reporte_amended (sols : List SolicitudDB) (k : Nat) (hk : k < sols.length)
    (sol : SolicitudDB) (hsol : sols.get ⟨k, hk⟩ = sol) :
    (tabla_datos sols).length = sols.length + 1 ∧
    (tabla_datos sols).getD (k + 1) [] = fila sol ∧
    (fila sol).length = 8 ∧
    (fila sol).getD 0 "" = toString sol.id ∧
    (fila sol).getD 1 "" = sol.solicitante ∧
    (fila sol).getD 2 "" = sol.servicio ∧
    (fila sol).getD 3 "" = get_fecha_inicio sol ++ " - " ++ get_fecha_fin sol ∧
    (fila sol).getD 4 "" = sol.direccion ++ "\n(Com.: " ++ sol.comisaria_cercana ++ ")" ∧
    (fila sol).getD 5 "" = sol.estado ∧
    (sol.autorizador = none ∨ sol.autorizador = some "" → (fila sol).getD 6 "" = "N/A") ∧
    (∀ a, sol.autorizador = some a → a ≠ "" → (fila sol).getD 6 "" = a) ∧
    (fila sol).getD 7 "" = sol.contacto ∧
    (colores_filas sols).getD k "" = color_estado sol.estado ∧
    (sol.estado = "PENDIENTE" → color_estado sol.estado = "yellow") ∧
    (sol.estado = "APROBADA" → color_estado sol.estado = "lightgreen") ∧
    (sol.estado = "RECHAZADA" → color_estado sol.estado = "lightcoral") ∧
    (sol.estado ≠ "PENDIENTE" → sol.estado ≠ "APROBADA" → sol.estado ≠ "RECHAZADA" →
      color_estado sol.estado = "white") := by
  have hrow : (tabla_datos sols).getD (k + 1) [] = fila sol := by
    show (encabezado :: sols.map fila).getD (k + 1) [] = fila sol
    rw [List.getD_cons_succ, getD_map_get fila sols k hk, hsol]
  have h6 : (fila sol).getD 6 "" = autorizador_str sol := rfl
  have hcol : (colores_filas sols).getD k "" = color_estado sol.estado := by
    simp only [colores_filas, tabla_datos, List.drop_succ_cons, List.drop_zero, List.map_map]
    rw [getD_map_get _ sols k hk, hsol]
    rfl
  refine ⟨by simp [tabla_datos], hrow, rfl, rfl, rfl, rfl, rfl, rfl, rfl, ?_, ?_, rfl,
    hcol, ?_, ?_, ?_, ?_⟩
  · intro h
    rw [h6]
    rcases h with h | h
    · simp [autorizador_str, h]
    · simp [autorizador_str, h]
  · intro a ha hne
    rw [h6]
    simp [autorizador_str, ha, hne]
  · intro h
    simp [color_estado, h]
  · intro h
    simp [color_estado, h]
  · intro h
    simp [color_estado, h]
  · intro h1 h2 h3
    simp [color_estado, h1, h2, h3]

/-- Counterexample to C9 as stated: a stored request whose authorizer is
the empty string (set, not absent) still renders the literal `"N/A"` in
the authorizer column, because the code tests Python truthiness rather
than NULL-ness. -/
theorem tabla_reporte_counterexample :
    ((tabla_datos [sol_autor_vacio]).getD 1 []).getD 6 "" = "N/A" ∧
    sol_autor_vacio.autorizador ≠ none := by
  decide

/-- Witness for the amended C9: over a single pending request the table
has one data row and it is highlighted yellow. -/
theorem tabla_reporte_witness :
    (tabla_datos [sol1]).getD 1 [] = fila sol1 ∧
    (colores_filas [sol1]).getD 0 "" = "yellow" := by
  obtain ⟨-, h2, -, -, -, -, -, -, -, -, -, -, h13, h14, -, -, -⟩ :=
    tabla_reporte_amended [sol1] 0 (by decide) sol1 rfl
  exact ⟨h2, by rw [h13]; exact h14 rfl⟩

end SistemaAutorizacion
